import Mathlib

/-!
Verification of the bellows Zigbee application layer
(`bellows/zigbee/zcl/__init__.py`, `device.py`, `endpoint.py`, `appdb.py`)
against its natural-language specification.

Bytes are modelled as `List Nat` with every element below 256; machine
integers are `Nat` with explicit `% 2 ^ w` where the code truncates.
The type codec (`bellows.types`) and the foundation command table
(`bellows.zigbee.zcl.foundation`) are not part of the analysed sources;
they are modelled from the specification and clearly marked as such.
All structural code (frame construction, frame decoding, the device
state machine, the attribute cache operations, the persistence
listener) is translated directly from the Python sources.
-/

namespace Bellows

/-- A byte string: a list of byte values (each `< 256`). -/
abbrev Bytes := List Nat

/-- Association-list lookup by numeric key, mirroring a Python `dict`
indexed by ids (keys are unique in every table the code builds). -/
def lookupA {α : Type} (l : List (Nat × α)) (k : Nat) : Option α :=
  (l.find? (fun p => p.1 == k)).map (fun p => p.2)

/-- Modelled from the spec: the Type Codec's primitive wire types
(`bellows.types` is outside the analysed sources).  Fixed-width
little-endian unsigned integers and a one-byte-length-prefixed octet
string, per §2 "fixed-width and variable-length primitive
(de)serialization (integers, bitmaps, strings, ...)". -/
inductive FieldType
  | uint8
  | uint16
  | octstr
  deriving DecidableEq, Repr

/-- A decoded value of one of the primitive wire types. -/
inductive FieldValue
  | u8 (v : Nat)
  | u16 (v : Nat)
  | bstr (bs : List Nat)
  deriving DecidableEq, Repr

/-- Modelled from the spec: serialization of one primitive value
(`bellows.types`, absent from the sources).  Returns `none` on a
type/value mismatch or an out-of-range value (a Python `ValueError`). -/
def serializeField : FieldType → FieldValue → Option Bytes
  | .uint8, .u8 v => if v < 256 then some [v] else none
  | .uint16, .u16 v => if v < 65536 then some [v % 256, v / 256] else none
  | .octstr, .bstr bs =>
      if bs.length < 256 ∧ bs.all (fun b => b < 256) then some (bs.length :: bs) else none
  | _, _ => none

/-- Modelled from the spec: deserialization of one primitive value
(`bellows.types`, absent from the sources).  Consumes a prefix of the
data and returns the remainder; `none` models the `ValueError` raised
on truncated data. -/
def deserializeField : FieldType → Bytes → Option (FieldValue × Bytes)
  | .uint8, b :: rest => some (.u8 b, rest)
  | .uint16, lo :: hi :: rest => some (.u16 (lo + 256 * hi), rest)
  | .octstr, n :: rest =>
      if n ≤ rest.length then some (.bstr (rest.take n), rest.drop n) else none
  | _, _ => none

/-- `bellows.types.serialize(data, schema)`: concatenation of each
argument serialized against its schema entry, in schema order.  The
call sites (`Cluster.request` / `Cluster.reply`) check
`len(schema) == len(args)` before calling, so the length-mismatch case
returning `none` is never reached from them. -/
def tSerialize : List FieldValue → List FieldType → Option Bytes
  | [], [] => some []
  | v :: vs, ty :: ts =>
      match serializeField ty v, tSerialize vs ts with
      | some b, some rest => some (b ++ rest)
      | _, _ => none
  | _, _ => none

/-- `bellows.types.deserialize(data, schema)`: deserializes one value
per schema entry, threading the remaining bytes, and returns the
decoded values together with the leftover bytes. -/
def tDeserialize : List FieldType → Bytes → Option (List FieldValue × Bytes)
  | [], data => some ([], data)
  | ty :: ts, data =>
      match deserializeField ty data with
      | none => none
      | some (v, rest) =>
          match tDeserialize ts rest with
          | none => none
          | some (vs, rest') => some (v :: vs, rest')

/-- One command table entry: `(command_name, argument schema, is_reply)`
as stored in `server_commands` / `client_commands` /
`foundation.COMMANDS`. -/
structure CommandDef where
  cname : String
  schema : List FieldType
  is_reply : Bool
  deriving DecidableEq, Repr

/-- A registered cluster definition: the `attributes` table
(`attrid -> (name, type)`) and the two command tables keyed by command
id, as carried by each `Cluster` subclass in the registry. -/
structure ClusterDef where
  attributes : List (Nat × String × FieldType)
  server_commands : List (Nat × CommandDef)
  client_commands : List (Nat × CommandDef)
  deriving DecidableEq, Repr

/-- `Cluster._registry`: cluster id → cluster definition.  The content
is built by the (out-of-source) `clusters` modules, so the development
is parameterised over it. -/
abbrev ClusterRegistry := List (Nat × ClusterDef)

/-- `foundation.COMMANDS`: general (foundation) command id → command
definition.  The table lives in the out-of-source `foundation` module,
so it is a parameter. -/
abbrev FoundationTable := List (Nat × CommandDef)

/-- Result payload of `zcl.deserialize`: either decoded argument values
or, on the unknown-cluster / unknown-command paths, the raw undecoded
remainder of the frame. -/
inductive DecodedArgs
  | values (vs : List FieldValue)
  | raw (bs : Bytes)
  deriving DecidableEq, Repr

/-- `bellows.zigbee.zcl.deserialize(cluster_id, data)` translated
statement by statement.  Returns `(tsn, command_id, is_reply, args)`;
`none` models the uncaught exceptions (`IndexError` on a short header,
`ValueError` from `t.deserialize` on truncated argument data).
Leftover bytes after a decoded schema are only logged (`LOGGER.warning`)
and discarded. -/
def zclDeserialize (registry : ClusterRegistry) (foundation : FoundationTable)
    (cluster_id : Nat) (data : Bytes) : Option (Nat × Nat × Bool × DecodedArgs) :=
  match data with
  | [] => none
  | frame_control :: data1 =>
    let frame_type := frame_control % 4
    let direction := frame_control / 8 % 2
    let data2 := if frame_control / 4 % 2 = 1 then data1.drop 2 else data1
    match data2 with
    | tsn :: command_id :: data3 =>
      let is_reply : Bool := direction != 0
      if frame_type = 1 then
        match lookupA registry cluster_id with
        | none => some (tsn, command_id + 256, is_reply, .raw data3)
        | some cluster =>
          let commands := if direction != 0 then cluster.client_commands
                          else cluster.server_commands
          match lookupA commands command_id with
          | none => some (tsn, command_id + 256, is_reply, .raw data3)
          | some cmd =>
            match tDeserialize cmd.schema data3 with
            | none => none
            | some (value, _) => some (tsn, command_id + 256, cmd.is_reply, .values value)
      else
        match lookupA foundation command_id with
        | none => some (tsn, command_id, is_reply, .raw data3)
        | some cmd =>
          match tDeserialize cmd.schema data3 with
          | none => none
          | some (value, _) => some (tsn, command_id, cmd.is_reply, .values value)
    | _ => none

/-- The frame construction inside `Cluster.request`: one control byte
(`0x00` general / `0x01` cluster-specific, `|= 0b0100` when a
manufacturer code is present), the little-endian 16-bit manufacturer
code iff present, the sequence byte, the command id byte, then the
serialized arguments.  `none` models the `ValueError`s raised by
`bytes([...])` / `int.to_bytes` on out-of-range values and the
length-mismatch error path of `request`. -/
def requestFrame (general : Bool) (sequence command_id : Nat)
    (schema : List FieldType) (args : List FieldValue)
    (manufacturer : Option Nat) : Option Bytes :=
  if schema.length ≠ args.length then none
  else if 256 ≤ sequence ∨ 256 ≤ command_id then none
  else
    match manufacturer with
    | some m =>
        if 65536 ≤ m then none
        else
          let fc := (if general then 0x00 else 0x01) + 4
          match tSerialize args schema with
          | none => none
          | some body => some (fc :: [m % 256, m / 256] ++ sequence :: command_id :: body)
    | none =>
        let fc := if general then 0x00 else 0x01
        match tSerialize args schema with
        | none => none
        | some body => some (fc :: sequence :: command_id :: body)

/-! ### Device state machine (`bellows/zigbee/device.py`) -/

/-- `device.Status`: the initialization status of a Device
(`NEW = 0`, `ENDPOINTS_INITED = 10`, `INITIALIZED = 100`). -/
inductive DStatus
  | NEW
  | ENDPOINTS_INITED
  | INITIALIZED
  deriving DecidableEq, Repr

/-- The numeric value of each `device.Status` member. -/
def DStatus.toNat : DStatus → Nat
  | .NEW => 0
  | .ENDPOINTS_INITED => 10
  | .INITIALIZED => 100

/-- The part of a `Device`'s state that `Device.initialize` reads and
writes: the status and the lazily resolved manufacturer code. -/
structure DeviceState where
  status : DStatus
  manufacturer_code : Option Nat
  deriving DecidableEq, Repr

/-- Lifecycle events emitted by `Device.initialize`. -/
inductive DeviceEvent
  | device_initialized
  deriving DecidableEq, Repr

/-- `Device.get_manufacturer_code`: returns the cached code if present;
otherwise issues a node-descriptor request, modelled by the oracle
`ndr` (`some code` on success, `none` when the request fails), caching
a successful result.  Returns the (possibly still absent) code together
with the updated state. -/
def get_manufacturer_code (ndr : Option Nat) (s : DeviceState) :
    Option Nat × DeviceState :=
  match s.manufacturer_code with
  | some m => (some m, s)
  | none =>
    match ndr with
    | some m => (some m, { s with manufacturer_code := some m })
    | none => (none, s)

/-- `Device.initialize(silent)`: when the status is `NEW`, runs endpoint
discovery (outcome given by the oracle `discovery_ok`, the boolean
returned by `Device._discover_endpoints`) and on success advances to
`ENDPOINTS_INITED`; then, whenever `get_manufacturer_code` yields a
code, sets the status to `INITIALIZED`; finally, unless `silent`, emits
the `device_initialized` listener event.  Returns the new state and the
emitted events. -/
def initializeDevice (discovery_ok : Bool) (ndr : Option Nat) (silent : Bool)
    (s : DeviceState) : DeviceState × List DeviceEvent :=
  let s1 := if s.status = DStatus.NEW ∧ discovery_ok = true then
      { s with status := DStatus.ENDPOINTS_INITED }
    else s
  let r := get_manufacturer_code ndr s1
  let s2 := if r.1.isSome then { r.2 with status := DStatus.INITIALIZED } else r.2
  (s2, if silent then [] else [DeviceEvent.device_initialized])

/-! ### Cluster runtime state and operations (`bellows/zigbee/zcl/__init__.py`) -/

/-- Python-`dict` insertion: replace the value of an existing key in
place, otherwise append the new pair at the end. -/
def dinsert {κ α : Type} [DecidableEq κ] : List (κ × α) → κ → α → List (κ × α)
  | [], k, v => [(k, v)]
  | p :: rest, k, v =>
      if p.1 = k then (k, v) :: rest else p :: dinsert rest k v

/-- Python-`dict` lookup. -/
def dlookup {κ α : Type} [DecidableEq κ] (l : List (κ × α)) (k : κ) : Option α :=
  (l.find? (fun p => decide (p.1 = k))).map (fun p => p.2)

/-- The mutable state of one runtime `Cluster` object: its resolved
definition (`none` for the unknown-cluster fallback built by
`Cluster.from_id`) and the attribute cache `_attr_cache`. -/
structure RCluster where
  cdef : Option ClusterDef
  attr_cache : List (Nat × Nat)
  deriving DecidableEq, Repr

/-- Events emitted through `listener_event` by the cluster code paths. -/
inductive CEvent
  | zdo_command (command_id : Nat)
  | cluster_command (command_id : Nat)
  | attribute_updated (attrid : Nat) (value : Nat)
  deriving DecidableEq, Repr

/-- `Cluster._update_attribute`: writes the cache entry and emits one
`attribute_updated` event; the attribute id is not checked against the
cluster definition. -/
def update_attribute (c : RCluster) (attrid value : Nat) : RCluster × CEvent :=
  ({ c with attr_cache := dinsert c.attr_cache attrid value },
   CEvent.attribute_updated attrid value)

/-- The attribute-report loop of `handle_message`
(`for attr in args[0]: await self._update_attribute(attr.attrid,
attr.value.value)`): threads the cluster state through the records and
collects one `attribute_updated` event per record, in record order. -/
def reportLoop : RCluster → List (Nat × Nat) → RCluster × List CEvent
  | c, [] => (c, [])
  | c, r :: rs =>
      let u := update_attribute c r.1 r.2
      let t := reportLoop u.1 rs
      (t.1, u.2 :: t.2)

/-- `Cluster.handle_message` restricted to the state it touches:
replies are logged and dropped; a general command (id `<= 0xff`) first
emits the `zdo_command` listener event and, for the attribute-report
command `0x0a`, updates the cache once per reported
`(attribute id, value)` record (given by `report_args`, the decoded
`args[0]`), emitting one `attribute_updated` event per record;
other general commands fall through to the no-op default handler.
A cluster-specific command (id `> 0xff`, the decoder's `+256`
encapsulation) is un-encapsulated, emits `cluster_command` and goes to
the no-op default cluster handler. -/
def handle_message (c : RCluster) (is_reply : Bool) (command_id : Nat)
    (report_args : List (Nat × Nat)) : RCluster × List CEvent :=
  if is_reply then (c, [])
  else if command_id ≤ 0xff then
    if command_id = 0x0a then
      let t := reportLoop c report_args
      (t.1, CEvent.zdo_command command_id :: t.2)
    else (c, [CEvent.zdo_command command_id])
  else (c, [CEvent.cluster_command (command_id - 256)])

/-- `PersistingListener.load`, attribute-seeding step for one persisted
`cluster_attributes` row: `clus._attr_cache[attrid] = value` — a raw
cache write with no validation against the cluster definition. -/
def load_seed_attribute (c : RCluster) (attrid value : Nat) : RCluster :=
  { c with attr_cache := dinsert c.attr_cache attrid value }

/-- A requested attribute: the caller may pass a numeric id or a name
(resolved through the cluster's `_attridx`). -/
inductive AttrRef
  | byId (id : Nat)
  | byName (nm : String)
  deriving DecidableEq, Repr

/-- `Cluster._attridx`: attribute name → attribute id, built from the
definition's `attributes` table (names are unique within a cluster). -/
def attridx (d : ClusterDef) (nm : String) : Option Nat :=
  (d.attributes.find? (fun p => p.2.1 == nm)).map (fun p => p.1)

/-- Name-to-id resolution as performed at the top of `read_attributes`
and `write_attributes`: a string goes through `_attridx` (`none` models
the `KeyError` on an unknown name); an integer is used as-is. -/
def resolveAttr (d : ClusterDef) : AttrRef → Option Nat
  | .byId i => some i
  | .byName nm => attridx d nm

/-- The response `read_attributes_raw` produces for the batched read:
either a default response (`result[0]` not a list) or a list of
`(attrid, status, value)` read-attribute records. -/
inductive ReadResponse
  | defaultResponse (status : Nat)
  | records (rs : List (Nat × Nat × Nat))
  deriving DecidableEq, Repr

/-- Return value of `read_attributes`: the `(success, failure)` maps
keyed by the caller's original references, or (with `raw=True`) the
single requested value. -/
inductive ReadResult
  | maps (success : List (AttrRef × Nat)) (failure : List (AttrRef × Nat))
  | single (v : Nat)
  deriving DecidableEq, Repr

/-- Everything `read_attributes` produces: the cache after the call,
the returned maps, whether `read_attributes_raw` was invoked, and the
`attribute_updated` events emitted for successful records. -/
structure ReadOutcome where
  cache : List (Nat × Nat)
  result : ReadResult
  network_called : Bool
  events : List CEvent
  deriving DecidableEq, Repr

/-- The cache-splitting loop body of `read_attributes` (`allow_cache`
branch): a cache hit is entered into the success dict keyed by the
caller's original reference; a miss appends the resolved id to
`to_read`. -/
def cacheSplitStep (cache : List (Nat × Nat))
    (acc : List (AttrRef × Nat) × List Nat) (p : Nat × AttrRef) :
    List (AttrRef × Nat) × List Nat :=
  match dlookup cache p.1 with
  | some v => (dinsert acc.1 p.2 v, acc.2)
  | none => (acc.1, acc.2 ++ [p.1])

/-- The record loop of `read_attributes` (`for record in result[0]`):
status `0` records update the cache (emitting `attribute_updated`) and
land in `success`; others land in `failure`; both maps are keyed by
`orig_attributes[record.attrid]` (`none` models the `KeyError` on a
record for an attribute that was never requested). -/
def processRecords (orig : List (Nat × AttrRef)) :
    List (Nat × Nat × Nat) → List (Nat × Nat) → List (AttrRef × Nat) →
    List (AttrRef × Nat) → List CEvent →
    Option (List (Nat × Nat) × List (AttrRef × Nat) × List (AttrRef × Nat) × List CEvent)
  | [], cache, succ, fail, evs => some (cache, succ, fail, evs)
  | (attrid, st, v) :: rest, cache, succ, fail, evs =>
      match dlookup orig attrid with
      | none => none
      | some o =>
          if st = 0 then
            processRecords orig rest (dinsert cache attrid v) (dinsert succ o v) fail
              (evs ++ [CEvent.attribute_updated attrid v])
          else
            processRecords orig rest cache succ (dinsert fail o st) evs

/-- `Cluster.read_attributes(attributes, allow_cache, raw)` translated
step by step.  `resp` is the oracle for the network response to the one
batched `read_attributes_raw` call; it is consulted only when that call
is issued.  `none` models the uncaught exceptions of the Python code
(the `raw` assertion, `KeyError` on an unknown attribute name, the
`KeyError`s on the raw-result lookup and on an unsolicited record). -/
def read_attributes (d : ClusterDef) (cache : List (Nat × Nat))
    (attributes : List AttrRef) (allow_cache raw : Bool)
    (resp : ReadResponse) : Option ReadOutcome :=
  if raw ∧ attributes.length ≠ 1 then none
  else
    match attributes.mapM (resolveAttr d) with
    | none => none
    | some attribute_ids =>
      let pairs := attribute_ids.zip attributes
      let orig_attributes := pairs.foldl (fun m p => dinsert m p.1 p.2) []
      let split :=
        if allow_cache then pairs.foldl (cacheSplitStep cache) ([], [])
        else (([] : List (AttrRef × Nat)), attribute_ids)
      let success := split.1
      let to_read := split.2
      if to_read.isEmpty then
        if raw then
          match attributes with
          | [a] =>
              match dlookup success a with
              | some v => some ⟨cache, ReadResult.single v, false, []⟩
              | none => none
          | _ => none
        else some ⟨cache, ReadResult.maps success [], false, []⟩
      else
        match resp with
        | ReadResponse.defaultResponse st =>
            let fail := to_read.foldl
              (fun f attrid =>
                match dlookup orig_attributes attrid with
                | some o => dinsert f o st
                | none => f)
              []
            if raw then none
            else some ⟨cache, ReadResult.maps success fail, true, []⟩
        | ReadResponse.records rs =>
            match processRecords orig_attributes rs cache success [] [] with
            | none => none
            | some (cache', succ', fail', evs) =>
                if raw then
                  match attributes with
                  | [a] =>
                      match dlookup succ' a with
                      | some v => some ⟨cache', ReadResult.single v, true, evs⟩
                      | none => none
                  | _ => none
                else some ⟨cache', ReadResult.maps succ' fail', true, evs⟩

/-- The invariant claimed by the specification for attribute caches:
once the cluster definition is known, every cached attribute id occurs
in the definition's `attributes` table (fallback clusters are
unconstrained). -/
def cacheRespectsDefB (c : RCluster) : Bool :=
  match c.cdef with
  | none => true
  | some d => c.attr_cache.all (fun p => (lookupA d.attributes p.1).isSome)

/-- Projects an `attribute_updated` event to its `(attrid, value)`
payload; other events project to `none`. -/
def attrUpdPayload : CEvent → Option (Nat × Nat)
  | .attribute_updated a v => some (a, v)
  | _ => none

/-- Modelled from the spec: coercing a caller-supplied integer to an
attribute's declared type (`python_type(value)` with the types from the
absent `bellows.types` module); `none` is the `ValueError` raised when
the value is outside the type's valid range. -/
def coerceValue : FieldType → Int → Option FieldValue
  | .uint8, v => if 0 ≤ v ∧ v < 256 then some (.u8 v.toNat) else none
  | .uint16, v => if 0 ≤ v ∧ v < 65536 then some (.u16 v.toNat) else none
  | .octstr, _ => none

/-- Modelled from the spec: `foundation.DATA_TYPE_IDX` — the ZCL wire
data-type id of each primitive type (the `foundation` module is outside
the analysed sources). -/
def dataTypeIdx : FieldType → Nat
  | .uint8 => 0x20
  | .uint16 => 0x21
  | .octstr => 0x41

/-- The record-building loop of `Cluster.write_attributes`: for each
`(attrid, value)` entry, resolve a name through `_attridx` (an unknown
name raises `KeyError` — `none` aborts the whole call), skip ids absent
from the definition's `attributes` table (logged, `continue`), then
coerce the value to the declared type, skipping the entry when that
raises `ValueError`; survivors become `(attrid, data-type id, value)`
records in mapping order, which the method then sends as the single
outgoing write/report frame. -/
def writeAttrArgs (d : ClusterDef) :
    List (AttrRef × Int) → Option (List (Nat × Nat × FieldValue))
  | [] => some []
  | (ref, value) :: rest =>
      match resolveAttr d ref with
      | none => none
      | some attrid =>
          match lookupA d.attributes attrid with
          | none => writeAttrArgs d rest
          | some (_, ty) =>
              match coerceValue ty value with
              | none => writeAttrArgs d rest
              | some fv =>
                  match writeAttrArgs d rest with
                  | none => none
                  | some args => some ((attrid, dataTypeIdx ty, fv) :: args)

/-! ### Persistence listener (`bellows/zigbee/appdb.py`) -/

/-- `endpoint.Status`. -/
inductive EPStatus
  | NEW
  | INITIALIZING
  | ZDO_INIT
  | INITIALIZED
  deriving DecidableEq, Repr

/-- The per-cluster data `_save_clusters` reads: the cluster id and the
`is_input` flag (`none` mirrors the `None` it holds until
`add_cluster` sets it). -/
structure PCluster where
  cluster_id : Nat
  is_input : Option Bool
  deriving DecidableEq, Repr

/-- The per-endpoint data the persistence listener reads. -/
structure PEndpoint where
  endpoint_id : Nat
  status : EPStatus
  profile_id : Option Nat
  device_type : Option Nat
  in_clusters : List (Nat × PCluster)
  out_clusters : List (Nat × PCluster)
  deriving DecidableEq, Repr

/-- The per-device data the persistence listener reads.  The ieee
address is modelled as a number (the sqlite layer stores its hex-string
rendering; the representation is irrelevant to row identity). -/
structure PDevice where
  ieee : Nat
  nwk : Nat
  manufacturer_code : Option Nat
  status : DStatus
  endpoints : List (Nat × PEndpoint)
  deriving DecidableEq, Repr

/-- The access path `attribute_updated` uses:
`cluster.endpoint.device.ieee`, `cluster.endpoint.endpoint_id`,
`cluster.cluster_id`, `cluster.is_input`. -/
structure ClusterPath where
  ieee : Nat
  endpoint_id : Nat
  cluster_id : Nat
  is_input : Option Bool
  deriving DecidableEq, Repr

/-- The four relations of the snapshot store.  Rows are kept in
insertion order; `INSERT OR REPLACE` against each table's unique index
is modelled as delete-conflicting-then-append. -/
structure DB where
  devices : List (Nat × Nat × Option Nat)
  endpoints : List (Nat × Nat × Option Nat × Option Nat)
  clusters : List (Nat × Nat × Nat × Option Bool)
  cluster_attributes : List (Nat × Nat × Nat × Nat × Nat)
  deriving DecidableEq, Repr

/-- `INSERT OR REPLACE INTO devices` (unique index on `ieee`). -/
def upsertDeviceRow (rows : List (Nat × Nat × Option Nat))
    (r : Nat × Nat × Option Nat) : List (Nat × Nat × Option Nat) :=
  rows.filter (fun q => decide (q.1 ≠ r.1)) ++ [r]

/-- `PersistingListener._save_endpoints`: delete this device's endpoint
rows, then insert one row per endpoint, skipping the ZDO endpoint 0 and
any endpoint whose status is not `INITIALIZED`. -/
def save_endpoints (dev : PDevice) (db : DB) : DB :=
  let cleared := db.endpoints.filter (fun r => decide (r.1 ≠ dev.ieee))
  let rows := dev.endpoints.filterMap (fun p =>
    if p.1 = 0 ∨ p.2.status ≠ EPStatus.INITIALIZED then none
    else some (dev.ieee, p.2.endpoint_id, p.2.profile_id, p.2.device_type))
  { db with endpoints := cleared ++ rows }

/-- `PersistingListener._save_clusters`: delete this device's cluster
rows (the `WHERE` clause is on `ieee` alone), then insert one row per
input cluster followed by one per output cluster of this endpoint. -/
def save_clusters (ieee : Nat) (ep : PEndpoint) (db : DB) : DB :=
  let cleared := db.clusters.filter (fun r => decide (r.1 ≠ ieee))
  let inrows := ep.in_clusters.map (fun p =>
    (ieee, ep.endpoint_id, p.2.cluster_id, p.2.is_input))
  let outrows := ep.out_clusters.map (fun p =>
    (ieee, ep.endpoint_id, p.2.cluster_id, p.2.is_input))
  { db with clusters := cleared ++ inrows ++ outrows }

/-- `PersistingListener._save_device`: returns without touching the
store unless the device's status is `INITIALIZED`; otherwise upserts
the devices row, saves the endpoints, and saves each non-ZDO
endpoint's clusters. -/
def save_device (dev : PDevice) (db : DB) : DB :=
  if dev.status ≠ DStatus.INITIALIZED then db
  else
    let db1 := { db with
      devices := upsertDeviceRow db.devices (dev.ieee, dev.nwk, dev.manufacturer_code) }
    let db2 := save_endpoints dev db1
    dev.endpoints.foldl
      (fun d p => if p.1 = 0 then d else save_clusters dev.ieee p.2 d) db2

/-- `PersistingListener.device_joined`. -/
def pl_device_joined (dev : PDevice) (db : DB) : DB := save_device dev db

/-- `PersistingListener.device_initialized`. -/
def pl_device_initialized (dev : PDevice) (db : DB) : DB := save_device dev db

/-- `PersistingListener.device_updated`. -/
def pl_device_updated (dev : PDevice) (db : DB) : DB := save_device dev db

/-- `PersistingListener.device_left`: `pass`. -/
def pl_device_left (_dev : PDevice) (db : DB) : DB := db

/-- `PersistingListener.device_removed` → `_remove_device`: deletes the
device's rows from all four tables. -/
def pl_device_removed (dev : PDevice) (db : DB) : DB :=
  { devices := db.devices.filter (fun r => decide (r.1 ≠ dev.ieee)),
    endpoints := db.endpoints.filter (fun r => decide (r.1 ≠ dev.ieee)),
    clusters := db.clusters.filter (fun r => decide (r.1 ≠ dev.ieee)),
    cluster_attributes := db.cluster_attributes.filter (fun r => decide (r.1 ≠ dev.ieee)) }

/-- `PersistingListener.attribute_updated`: returns immediately unless
the cluster's `is_input` is truthy (`not cluster.is_input` is true both
for `False` and for the initial `None`); otherwise upserts one
`cluster_attributes` row (unique index on
`ieee, endpoint_id, cluster, attrid`). -/
def pl_attribute_updated (c : ClusterPath) (attrid value : Nat) (db : DB) : DB :=
  if c.is_input ≠ some true then db
  else
    let kept := db.cluster_attributes.filter
      (fun r => decide (¬ (r.1 = c.ieee ∧ r.2.1 = c.endpoint_id ∧
          r.2.2.1 = c.cluster_id ∧ r.2.2.2.1 = attrid)))
    { db with cluster_attributes :=
        kept ++ [(c.ieee, c.endpoint_id, c.cluster_id, attrid, value)] }

/-! ### Concrete fixtures used by counterexamples and witnesses -/

/-- A small registered cluster definition in the shape the registry
holds (cluster 0x0006, On/Off): an attribute table and server
commands, one of them with arguments. -/
def onOffDef : ClusterDef :=
  { attributes := [(0, ("on_off", FieldType.uint8)),
                   (16387, ("start_up_on_off", FieldType.uint8))],
    server_commands :=
      [(0, ⟨"off", [], false⟩), (1, ⟨"on", [], false⟩),
       (66, ⟨"on_timed", [FieldType.uint8, FieldType.uint16, FieldType.uint16], false⟩)],
    client_commands := [] }

/-- A one-entry registry holding `onOffDef` at cluster id 6. -/
def R0 : ClusterRegistry := [(6, onOffDef)]

/-- A two-entry foundation command table: a request-direction command
with one argument and a reply-direction command. -/
def F0 : FoundationTable :=
  [(0, ⟨"Read_Attributes", [FieldType.uint16], false⟩),
   (4, ⟨"Write_Attributes_rsp", [FieldType.uint8], true⟩)]

/-- The schema resolution `deserialize` performs for a request frame
(direction bit 0): general frames resolve in the foundation command
table, cluster-specific frames in the `server_commands` table of the
cluster id's registry entry. -/
def resolveRequestCommand (registry : ClusterRegistry) (foundation : FoundationTable)
    (general : Bool) (cluster_id command_id : Nat) : Option CommandDef :=
  if general then lookupA foundation command_id
  else (lookupA registry cluster_id).bind
    (fun cl => lookupA cl.server_commands command_id)

/-! ## Theorems -/

/-- A successful `tSerialize` forces the schema and argument lists to
have equal length. -/
theorem tSerialize_some_length {args : List FieldValue} {schema : List FieldType}
    {body : Bytes} (h : tSerialize args schema = some body) :
    schema.length = args.length := by
  induction args generalizing schema body with
  | nil => cases schema with
    | nil => rfl
    | cons t ts => simp [tSerialize] at h
  | cons v vs ih =>
    cases schema with
    | nil => simp [tSerialize] at h
    | cons t ts =>
      simp only [tSerialize] at h
      cases hs : serializeField t v with
      | none => rw [hs] at h; simp at h
      | some b =>
        rw [hs] at h
        cases hr : tSerialize vs ts with
        | none => rw [hr] at h; simp at h
        | some rest =>
          simp [List.length_cons, ih hr]

/-- Round trip for one primitive field: deserializing the bytes a value
serialized to, followed by anything, returns the value and the
trailing bytes untouched. -/
theorem deserializeField_serializeField {ty : FieldType} {v : FieldValue}
    {b : Bytes} (rest : Bytes) (h : serializeField ty v = some b) :
    deserializeField ty (b ++ rest) = some (v, rest) := by
  cases ty <;> cases v
  case uint8.u8 w =>
    simp only [serializeField] at h
    split at h
    · cases h; rfl
    · cases h
  case uint16.u16 w =>
    simp only [serializeField] at h
    split at h
    · cases h
      simp only [deserializeField, List.cons_append, List.nil_append,
        Option.some_inj, Prod.mk.injEq, and_true]
      rw [Nat.mod_add_div w 256]
    · cases h
  case octstr.bstr bs =>
    simp only [serializeField] at h
    split at h
    · cases h
      simp only [deserializeField, List.cons_append]
      rw [if_pos (by simp)]
      rw [List.take_left, List.drop_left]
    · cases h
  all_goals simp [serializeField] at h

/-- Round trip for an argument list against its schema, with arbitrary
trailing bytes. -/
theorem tDeserialize_tSerialize {args : List FieldValue} {schema : List FieldType}
    {body : Bytes} (rest : Bytes) (h : tSerialize args schema = some body) :
    tDeserialize schema (body ++ rest) = some (args, rest) := by
  induction args generalizing schema body with
  | nil =>
    cases schema with
    | nil => simp [tSerialize] at h; subst h; simp [tDeserialize]
    | cons t ts => simp [tSerialize] at h
  | cons v vs ih =>
    cases schema with
    | nil => simp [tSerialize] at h
    | cons t ts =>
      simp only [tSerialize] at h
      cases hs : serializeField t v with
      | none => rw [hs] at h; simp at h
      | some b =>
        rw [hs] at h
        cases hr : tSerialize vs ts with
        | none => rw [hr] at h; simp at h
        | some body' =>
          rw [hr] at h
          cases h
          simp only [tDeserialize, List.append_assoc]
          rw [deserializeField_serializeField (body' ++ rest) hs]
          simp only [ih hr]

/-- Decoding a frame built by `Cluster.request`'s frame construction —
with any trailing bytes appended — yields the encoded sequence number,
the encoded command id offset by 256 when the frame is
cluster-specific, the `is_reply` flag stored in the resolved command
table entry, and exactly the encoded argument values. -/
theorem zclDeserialize_requestFrame
    (registry : ClusterRegistry) (foundation : FoundationTable)
    (general : Bool) (cluster_id sequence command_id : Nat)
    (schema : List FieldType) (args : List FieldValue) (manufacturer : Option Nat)
    (frame extra : Bytes) (cmd : CommandDef)
    (hframe : requestFrame general sequence command_id schema args manufacturer = some frame)
    (hcmd : resolveRequestCommand registry foundation general cluster_id command_id = some cmd)
    (hschema : cmd.schema = schema) :
    zclDeserialize registry foundation cluster_id (frame ++ extra) =
      some (sequence, command_id + (if general then 0 else 256), cmd.is_reply,
        DecodedArgs.values args) := by
  cases hser : tSerialize args schema with
  | none => cases manufacturer <;> simp [requestFrame, hser] at hframe
  | some body =>
    cases general with
    | true =>
      simp [resolveRequestCommand] at hcmd
      cases manufacturer with
      | none =>
        simp only [requestFrame, hser] at hframe
        split at hframe
        · cases hframe
        split at hframe
        · cases hframe
        cases hframe
        simp only [zclDeserialize, List.cons_append]
        norm_num
        simp only [hcmd, hschema, tDeserialize_tSerialize extra hser]
      | some m =>
        simp only [requestFrame, hser] at hframe
        split at hframe
        · cases hframe
        split at hframe
        · cases hframe
        split at hframe
        · cases hframe
        cases hframe
        simp only [zclDeserialize, List.cons_append]
        norm_num
        simp only [hcmd, hschema, tDeserialize_tSerialize extra hser]
    | false =>
      simp [resolveRequestCommand, Option.bind_eq_some] at hcmd
      obtain ⟨cl, hcl, hsc⟩ := hcmd
      cases manufacturer with
      | none =>
        simp only [requestFrame, hser] at hframe
        split at hframe
        · cases hframe
        split at hframe
        · cases hframe
        cases hframe
        simp only [zclDeserialize, List.cons_append]
        norm_num
        simp only [hcl, hsc, hschema, tDeserialize_tSerialize extra hser]
      | some m =>
        simp only [requestFrame, hser] at hframe
        split at hframe
        · cases hframe
        split at hframe
        · cases hframe
        split at hframe
        · cases hframe
        cases hframe
        simp only [zclDeserialize, List.cons_append]
        norm_num
        simp only [hcl, hsc, hschema, tDeserialize_tSerialize extra hser]

/-- C1 (amended): for every valid frame built by `Cluster.request`'s
encoder — any registered cluster, command id resolving in the relevant
command table, schema and argument values, with or without a
manufacturer code — decoding the produced bytes yields the same
transaction sequence number and the same argument values; the decoded
command id equals the encoded one for general frames and the encoded
one plus 256 for cluster-specific frames, and the returned direction
flag is the `is_reply` flag of the resolved command table entry (not
the encoded direction bit). -/
theorem claim1_decode_encode_roundtrip
    (registry : ClusterRegistry) (foundation : FoundationTable)
    (general : Bool) (cluster_id sequence command_id : Nat)
    (schema : List FieldType) (args : List FieldValue) (manufacturer : Option Nat)
    (frame : Bytes) (cmd : CommandDef)
    (hframe : requestFrame general sequence command_id schema args manufacturer = some frame)
    (hcmd : resolveRequestCommand registry foundation general cluster_id command_id = some cmd)
    (hschema : cmd.schema = schema) :
    zclDeserialize registry foundation cluster_id frame =
      some (sequence, command_id + (if general then 0 else 256), cmd.is_reply,
        DecodedArgs.values args) := by
  have h := zclDeserialize_requestFrame registry foundation general cluster_id sequence
    command_id schema args manufacturer frame [] cmd hframe hcmd hschema
  rwa [List.append_nil] at h

/-- C1 counterexample: encoding the cluster-specific command 66 of the
registered cluster 6 (a request, direction bit 0) and decoding the
produced bytes yields command id 322 = 66 + 256 — not the encoded
command id 66 — so `decode (encode frame)` does not return the frame's
command id unchanged. -/
theorem claim1_counterexample :
    requestFrame false 12 66
        [FieldType.uint8, FieldType.uint16, FieldType.uint16]
        [FieldValue.u8 1, FieldValue.u16 300, FieldValue.u16 7] none =
      some [1, 12, 66, 1, 44, 1, 7, 0] ∧
    zclDeserialize R0 F0 6 [1, 12, 66, 1, 44, 1, 7, 0] =
      some (12, 322, false,
        DecodedArgs.values [FieldValue.u8 1, FieldValue.u16 300, FieldValue.u16 7]) ∧
    (322 : Nat) ≠ 66 :=
  ⟨rfl, rfl, by decide⟩

/-- C1 witness: the amended round trip at a concrete cluster-specific
frame carrying a manufacturer code. -/
theorem claim1_witness :
    requestFrame false 12 66 [FieldType.uint8, FieldType.uint16, FieldType.uint16]
        [FieldValue.u8 1, FieldValue.u16 300, FieldValue.u16 7] (some 4151) =
      some [5, 55, 16, 12, 66, 1, 44, 1, 7, 0] ∧
    resolveRequestCommand R0 F0 false 6 66 =
      some ⟨"on_timed", [FieldType.uint8, FieldType.uint16, FieldType.uint16], false⟩ ∧
    zclDeserialize R0 F0 6 [5, 55, 16, 12, 66, 1, 44, 1, 7, 0] =
      some (12, 66 + 256, false,
        DecodedArgs.values [FieldValue.u8 1, FieldValue.u16 300, FieldValue.u16 7]) :=
  ⟨rfl, rfl,
   claim1_decode_encode_roundtrip R0 F0 false 6 12 66
     [FieldType.uint8, FieldType.uint16, FieldType.uint16]
     [FieldValue.u8 1, FieldValue.u16 300, FieldValue.u16 7] (some 4151)
     [5, 55, 16, 12, 66, 1, 44, 1, 7, 0]
     ⟨"on_timed", [FieldType.uint8, FieldType.uint16, FieldType.uint16], false⟩
     rfl rfl rfl⟩

/-- C8: for every frame built by the encoder whose command schema
resolves in the registry, decoding the frame bytes with any extra
trailing bytes appended succeeds and returns exactly the same
`(tsn, command id, is_reply, arguments)` tuple as decoding the frame
without them — the leftover is only logged, never fatal. -/
theorem claim8_trailing_bytes_ignored
    (registry : ClusterRegistry) (foundation : FoundationTable)
    (general : Bool) (cluster_id sequence command_id : Nat)
    (schema : List FieldType) (args : List FieldValue) (manufacturer : Option Nat)
    (frame extra : Bytes) (cmd : CommandDef)
    (hframe : requestFrame general sequence command_id schema args manufacturer = some frame)
    (hcmd : resolveRequestCommand registry foundation general cluster_id command_id = some cmd)
    (hschema : cmd.schema = schema) :
    zclDeserialize registry foundation cluster_id (frame ++ extra) =
      zclDeserialize registry foundation cluster_id frame := by
  have h0 := zclDeserialize_requestFrame registry foundation general cluster_id sequence
    command_id schema args manufacturer frame [] cmd hframe hcmd hschema
  rw [List.append_nil] at h0
  rw [zclDeserialize_requestFrame registry foundation general cluster_id sequence
    command_id schema args manufacturer frame extra cmd hframe hcmd hschema, h0]

/-- C8 witness: a concrete general frame decodes identically with two
junk bytes appended. -/
theorem claim8_witness :
    requestFrame true 12 0 [FieldType.uint16] [FieldValue.u16 3] none =
      some [0, 12, 0, 3, 0] ∧
    resolveRequestCommand R0 F0 true 6 0 =
      some ⟨"Read_Attributes", [FieldType.uint16], false⟩ ∧
    zclDeserialize R0 F0 6 ([0, 12, 0, 3, 0] ++ [9, 9]) =
      zclDeserialize R0 F0 6 [0, 12, 0, 3, 0] :=
  ⟨rfl, rfl,
   claim8_trailing_bytes_ignored R0 F0 true 6 12 0 [FieldType.uint16] [FieldValue.u16 3]
     none [0, 12, 0, 3, 0] [9, 9] ⟨"Read_Attributes", [FieldType.uint16], false⟩
     rfl rfl rfl⟩

/-- C2 (amended): `Device.initialize` never regresses the status (the
numeric rank is monotone); when endpoint discovery fails and the
manufacturer code cannot be resolved the status is left exactly where
it was; and a failed endpoint discovery never produces
`ENDPOINTS_INITED` on that call — but a device whose manufacturer code
is already known still advances to `INITIALIZED` even when its
endpoint discovery failed, so a failed discovery step does not always
leave the status unchanged. -/
theorem claim2_status_monotone_amended
    (discovery_ok : Bool) (ndr : Option Nat) (silent : Bool) (s : DeviceState) :
    s.status.toNat ≤ ((initializeDevice discovery_ok ndr silent s).1).status.toNat ∧
    (discovery_ok = false → s.manufacturer_code = none → ndr = none →
      ((initializeDevice discovery_ok ndr silent s).1).status = s.status) ∧
    (discovery_ok = false → s.status = DStatus.NEW →
      ((initializeDevice discovery_ok ndr silent s).1).status ≠ DStatus.ENDPOINTS_INITED) := by
  cases s with
  | mk st mc =>
    cases st <;> cases discovery_ok <;> cases mc <;> cases ndr <;>
      simp [initializeDevice, get_manufacturer_code, DStatus.toNat]

/-- C2 counterexample: a `NEW` device whose manufacturer code was
supplied at construction advances past `NEW` — all the way to
`INITIALIZED` — on an `initialize` call in which the active-endpoint
discovery request failed. -/
theorem claim2_counterexample :
    (initializeDevice false none false ⟨DStatus.NEW, some 4151⟩).1 =
      ⟨DStatus.INITIALIZED, some 4151⟩ ∧
    DStatus.INITIALIZED ≠ DStatus.NEW := by decide

/-- C2 witness: the amended theorem applied to a concrete failed
initialization, discharging its implications. -/
theorem claim2_witness :
    ((initializeDevice false none false ⟨DStatus.NEW, none⟩).1).status = DStatus.NEW :=
  (claim2_status_monotone_amended false none false ⟨DStatus.NEW, none⟩).2.1 rfl rfl rfl

/-- C3 (amended): `Device.initialize` emits the `device_initialized`
lifecycle event exactly when the caller did not pass `silent=True`,
regardless of the status the call reaches — in particular also when
the device did not become `INITIALIZED`. -/
theorem claim3_event_iff_not_silent
    (discovery_ok : Bool) (ndr : Option Nat) (silent : Bool) (s : DeviceState) :
    (initializeDevice discovery_ok ndr silent s).2 =
      if silent then [] else [DeviceEvent.device_initialized] := by
  cases silent <;> simp [initializeDevice]

/-- C3 counterexample: a non-silent `initialize` call whose discovery
fails and whose manufacturer code cannot be resolved leaves the device
at `NEW` yet still emits `device_initialized`. -/
theorem claim3_counterexample :
    initializeDevice false none false ⟨DStatus.NEW, none⟩ =
      (⟨DStatus.NEW, none⟩, [DeviceEvent.device_initialized]) ∧
    DStatus.NEW ≠ DStatus.INITIALIZED := by decide

/-- C4: for every device whose status is not `INITIALIZED`, the
save-triggering handlers leave the devices, endpoints and clusters
tables unchanged: the three `_save_device` handlers (`device_joined`,
`device_initialized`, `device_updated`) write nothing at all,
`attribute_updated` never touches those three tables (for any device),
and `device_left` writes nothing. -/
theorem claim4_no_partial_persistence
    (dev : PDevice) (c : ClusterPath) (attrid value : Nat) (db : DB)
    (h : dev.status ≠ DStatus.INITIALIZED) :
    pl_device_joined dev db = db ∧
    pl_device_initialized dev db = db ∧
    pl_device_updated dev db = db ∧
    (pl_attribute_updated c attrid value db).devices = db.devices ∧
    (pl_attribute_updated c attrid value db).endpoints = db.endpoints ∧
    (pl_attribute_updated c attrid value db).clusters = db.clusters ∧
    pl_device_left dev db = db := by
  have hs : save_device dev db = db := by
    simp [save_device, h]
  refine ⟨hs, hs, hs, ?_, ?_, ?_, rfl⟩ <;>
    by_cases hin : c.is_input = some true <;>
      simp [pl_attribute_updated, hin]

/-- C4 witness: a `NEW` device's `device_initialized` event leaves a
concrete store untouched. -/
theorem claim4_witness :
    (PDevice.mk 7 99 (some 4151) DStatus.NEW []).status ≠ DStatus.INITIALIZED ∧
    pl_device_initialized ⟨7, 99, some 4151, DStatus.NEW, []⟩
        ⟨[(3, 5, none)], [], [], []⟩ =
      ⟨[(3, 5, none)], [], [], []⟩ :=
  ⟨by decide,
   (claim4_no_partial_persistence ⟨7, 99, some 4151, DStatus.NEW, []⟩
     ⟨7, 1, 6, some true⟩ 0 5 ⟨[(3, 5, none)], [], [], []⟩ (by decide)).2.1⟩

/-- C10: an `attribute_updated` event for an output cluster
(`is_input = False`) makes the persistence listener write nothing: the
store — in particular the `cluster_attributes` table — is unchanged. -/
theorem claim10_output_cluster_not_persisted
    (c : ClusterPath) (attrid value : Nat) (db : DB)
    (h : c.is_input = some false) :
    pl_attribute_updated c attrid value db = db := by
  simp [pl_attribute_updated, h]

/-- C10 witness: a concrete output-cluster attribute update leaves a
concrete store untouched. -/
theorem claim10_witness :
    (ClusterPath.mk 7 1 6 (some false)).is_input = some false ∧
    pl_attribute_updated ⟨7, 1, 6, some false⟩ 0 5
        ⟨[], [], [], [(7, 1, 6, 1, 2)]⟩ =
      ⟨[], [], [], [(7, 1, 6, 1, 2)]⟩ :=
  ⟨rfl,
   claim10_output_cluster_not_persisted ⟨7, 1, 6, some false⟩ 0 5
     ⟨[], [], [], [(7, 1, 6, 1, 2)]⟩ rfl⟩

/-- The report loop computes the fold of the cache updates and one
`attribute_updated` event per record, in record order. -/
theorem reportLoop_spec (records : List (Nat × Nat)) (c : RCluster) :
    reportLoop c records =
      (records.foldl (fun acc r => (update_attribute acc r.1 r.2).1) c,
       records.map (fun r => CEvent.attribute_updated r.1 r.2)) := by
  induction records generalizing c with
  | nil => simp [reportLoop]
  | cons r rs ih => simp [reportLoop, ih, update_attribute]

/-- Projecting the per-record events back out recovers the records. -/
theorem filterMap_attrUpdPayload_map (records : List (Nat × Nat)) :
    (records.map (fun r => CEvent.attribute_updated r.1 r.2)).filterMap attrUpdPayload =
      records := by
  induction records with
  | nil => rfl
  | cons r rs ih => simp [attrUpdPayload, ih]

/-- C9: a non-reply attribute report (general command `0x0a`) carrying
`n` records updates the cache once per record and emits — after the
`zdo_command` listener fan-out — exactly one `attribute_updated` event
per record, in exactly the order the records appear in the report. -/
theorem claim9_report_one_event_per_record
    (c : RCluster) (records : List (Nat × Nat)) :
    handle_message c false 0x0a records =
      (records.foldl (fun acc r => (update_attribute acc r.1 r.2).1) c,
       CEvent.zdo_command 0x0a ::
         records.map (fun r => CEvent.attribute_updated r.1 r.2)) ∧
    (handle_message c false 0x0a records).2.filterMap attrUpdPayload = records := by
  have h1 : handle_message c false 0x0a records =
      (records.foldl (fun acc r => (update_attribute acc r.1 r.2).1) c,
       CEvent.zdo_command 0x0a ::
         records.map (fun r => CEvent.attribute_updated r.1 r.2)) := by
    simp [handle_message, reportLoop_spec]
  refine ⟨h1, ?_⟩
  rw [h1, List.filterMap_cons]
  simp only [attrUpdPayload]
  exact filterMap_attrUpdPayload_map records

/-- Looking up the key just inserted returns the inserted value. -/
theorem dlookup_dinsert_self {κ α : Type} [DecidableEq κ]
    (l : List (κ × α)) (k : κ) (v : α) :
    dlookup (dinsert l k v) k = some v := by
  induction l with
  | nil => simp [dinsert, dlookup]
  | cons p rest ih =>
    obtain ⟨p1, p2⟩ := p
    by_cases h : p1 = k
    · simp [dinsert, h, dlookup, List.find?_cons]
    · simp only [dinsert, if_neg h]
      simpa [dlookup, List.find?_cons, h] using ih

/-- Looking up a different key after an insertion is unchanged. -/
theorem dlookup_dinsert_ne {κ α : Type} [DecidableEq κ]
    (l : List (κ × α)) (k k' : κ) (v : α) (h : k' ≠ k) :
    dlookup (dinsert l k v) k' = dlookup l k' := by
  have h' : ¬ (k = k') := fun hk => h hk.symm
  induction l with
  | nil => simp [dinsert, dlookup, List.find?_cons, h']
  | cons p rest ih =>
    obtain ⟨p1, p2⟩ := p
    by_cases hp : p1 = k
    · subst hp
      simp [dinsert, dlookup, List.find?_cons, h']
    · simp only [dinsert, if_neg hp]
      by_cases hq : p1 = k'
      · simp [dlookup, List.find?_cons, hq]
      · simpa [dlookup, List.find?_cons, hq] using ih

/-- A member of `dinsert l k v` is the inserted pair or a member of
`l`. -/
theorem mem_dinsert {κ α : Type} [DecidableEq κ]
    (q : κ × α) (l : List (κ × α)) (k : κ) (v : α)
    (h : q ∈ dinsert l k v) : q = (k, v) ∨ q ∈ l := by
  induction l with
  | nil => simpa [dinsert] using h
  | cons p rest ih =>
    by_cases hp : p.1 = k
    · simp only [dinsert, if_pos hp] at h
      rcases List.mem_cons.mp h with h | h
      · exact Or.inl h
      · exact Or.inr (List.mem_cons_of_mem _ h)
    · simp only [dinsert, if_neg hp] at h
      rcases List.mem_cons.mp h with h | h
      · exact Or.inr (by simp [h])
      · rcases ih h with h' | h'
        · exact Or.inl h'
        · exact Or.inr (List.mem_cons_of_mem _ h')

/-- The inserted pair is a member of the result. -/
theorem self_mem_dinsert {κ α : Type} [DecidableEq κ]
    (l : List (κ × α)) (k : κ) (v : α) : (k, v) ∈ dinsert l k v := by
  induction l with
  | nil => simp [dinsert]
  | cons p rest ih =>
    by_cases h : p.1 = k <;> simp [dinsert, h, ih]

/-- A successful `dlookup` exhibits a member of the list. -/
theorem dlookup_mem {κ α : Type} [DecidableEq κ]
    {l : List (κ × α)} {k : κ} {v : α}
    (h : dlookup l k = some v) : (k, v) ∈ l := by
  unfold dlookup at h
  cases hf : l.find? (fun p => decide (p.1 = k)) with
  | none => rw [hf] at h; cases h
  | some q =>
    rw [hf] at h
    have hm := List.mem_of_find?_eq_some hf
    have hp := List.find?_some hf
    simp only [decide_eq_true_eq] at hp
    simp at h
    obtain ⟨q1, q2⟩ := q
    simp_all

/-- C5 (amended): cache writes are unvalidated — `_update_attribute`
(the single write path behind attribute reports, successful reads,
local updates, and persistence-replay seeding) stores exactly the
given attribute id and value regardless of the known cluster
definition, so writing an id absent from the definition's attributes
table violates the claimed containment invariant. -/
theorem claim5_cache_write_unvalidated
    (c : RCluster) (d : ClusterDef) (attrid value : Nat)
    (hd : c.cdef = some d) (habs : lookupA d.attributes attrid = none) :
    dlookup ((update_attribute c attrid value).1).attr_cache attrid = some value ∧
    cacheRespectsDefB ((update_attribute c attrid value).1) = false := by
  constructor
  · simp [update_attribute, dlookup_dinsert_self]
  · simp only [update_attribute, cacheRespectsDefB, hd]
    rw [List.all_eq_false]
    refine ⟨(attrid, value), self_mem_dinsert _ _ _, ?_⟩
    simp [habs]

/-- C5 counterexample: a report carrying attribute id 0xFF01 — absent
from the known definition's table — handled by `handle_message` puts
0xFF01 into the cache of a cluster whose definition is known, so the
claimed invariant is not preserved by the cache-writing operations. -/
theorem claim5_counterexample :
    cacheRespectsDefB ⟨some onOffDef, []⟩ = true ∧
    (handle_message ⟨some onOffDef, []⟩ false 0x0a [(0xFF01, 7)]).1.attr_cache =
      [(0xFF01, 7)] ∧
    cacheRespectsDefB ((handle_message ⟨some onOffDef, []⟩ false 0x0a [(0xFF01, 7)]).1) =
      false := by
  refine ⟨rfl, rfl, rfl⟩

/-- C5 witness: the amended theorem at a concrete known-definition
cluster and an id outside its table. -/
theorem claim5_witness :
    lookupA onOffDef.attributes 0xFF01 = none ∧
    dlookup ((update_attribute ⟨some onOffDef, []⟩ 0xFF01 7).1).attr_cache 0xFF01 =
      some 7 ∧
    cacheRespectsDefB ((update_attribute ⟨some onOffDef, []⟩ 0xFF01 7).1) = false :=
  ⟨rfl,
   claim5_cache_write_unvalidated ⟨some onOffDef, []⟩ onOffDef 0xFF01 7 rfl rfl⟩

/-- C7: in a `write_attributes` batch, an entry whose resolved id is
absent from the cluster definition's attributes table, or whose value
fails coercion to the declared type (a `ValueError`), is dropped alone:
the outgoing record list is exactly the one produced by the batch with
that entry removed, so the failure is not fatal and every other
attribute is still serialized and sent. -/
theorem claim7_failed_write_skipped
    (d : ClusterDef) (pre post : List (AttrRef × Int)) (ref : AttrRef) (value : Int)
    (attrid : Nat)
    (hres : resolveAttr d ref = some attrid)
    (hfail : lookupA d.attributes attrid = none ∨
      ∃ nm ty, lookupA d.attributes attrid = some (nm, ty) ∧
        coerceValue ty value = none) :
    writeAttrArgs d (pre ++ (ref, value) :: post) = writeAttrArgs d (pre ++ post) := by
  induction pre with
  | nil =>
    simp only [List.nil_append, writeAttrArgs, hres]
    rcases hfail with h | ⟨nm, ty, h, hco⟩
    · rw [h]
    · rw [h]
      simp only [hco]
  | cons q qs ih =>
    obtain ⟨qref, qval⟩ := q
    simp only [List.cons_append, writeAttrArgs, List.append_eq]
    rw [ih]

/-- C7 witness: a batch of three entries in which the middle entry's
value 300 is out of range for its `uint8` attribute produces exactly
the records of the two-entry batch without it. -/
theorem claim7_witness :
    resolveAttr onOffDef (AttrRef.byId 16387) = some 16387 ∧
    coerceValue FieldType.uint8 300 = none ∧
    writeAttrArgs onOffDef
        [(AttrRef.byId 0, 1), (AttrRef.byId 16387, 300), (AttrRef.byName "on_off", 0)] =
      writeAttrArgs onOffDef [(AttrRef.byId 0, 1), (AttrRef.byName "on_off", 0)] :=
  ⟨rfl, rfl,
   claim7_failed_write_skipped onOffDef [(AttrRef.byId 0, 1)]
     [(AttrRef.byName "on_off", 0)] (AttrRef.byId 16387) 300 16387 rfl
     (Or.inr ⟨"start_up_on_off", FieldType.uint8, rfl, rfl⟩)⟩

/-- A successful name-to-id resolution pass relates each requested
reference to its resolved id positionally. -/
theorem mapM_resolve_spec (d : ClusterDef) :
    ∀ (refs : List AttrRef) (ids : List Nat),
      refs.mapM (resolveAttr d) = some ids →
      (∀ p ∈ ids.zip refs, resolveAttr d p.2 = some p.1) ∧
      (∀ ref ∈ refs, ∃ id, resolveAttr d ref = some id ∧ (id, ref) ∈ ids.zip refs) := by
  intro refs
  induction refs with
  | nil =>
    intro ids h
    simp only [List.mapM_nil, pure, Option.some_inj] at h
    subst h
    simp
  | cons r rs ih =>
    intro ids h
    rw [List.mapM_cons] at h
    cases hr : resolveAttr d r with
    | none => rw [hr] at h; simp at h
    | some i =>
      rw [hr] at h
      cases hrs : rs.mapM (resolveAttr d) with
      | none => rw [hrs] at h; simp at h
      | some is =>
        rw [hrs] at h
        simp at h
        subst h
        obtain ⟨h1, h2⟩ := ih is hrs
        refine ⟨?_, ?_⟩
        · intro p hp
          rw [List.zip_cons_cons] at hp
          rcases List.mem_cons.mp hp with hp | hp
          · subst hp; exact hr
          · exact h1 p hp
        · intro ref href
          rcases List.mem_cons.mp href with rfl | hm
          · exact ⟨i, hr, by rw [List.zip_cons_cons]; exact List.mem_cons_self _ _⟩
          · obtain ⟨id, hid, hmem⟩ := h2 ref hm
            exact ⟨id, hid, by rw [List.zip_cons_cons]; exact List.mem_cons_of_mem _ hmem⟩

/-- When every pair is a cache hit, the split loop leaves `to_read`
exactly as it found it. -/
theorem cacheSplit_snd (cache : List (Nat × Nat)) :
    ∀ (pairs : List (Nat × AttrRef)) (acc : List (AttrRef × Nat)) (tr : List Nat),
      (∀ p ∈ pairs, (dlookup cache p.1).isSome = true) →
      (pairs.foldl (cacheSplitStep cache) (acc, tr)).2 = tr := by
  intro pairs
  induction pairs with
  | nil => intro acc tr _; rfl
  | cons p ps ih =>
    intro acc tr h
    have hp := h p (List.mem_cons_self _ _)
    cases hv : dlookup cache p.1 with
    | none => rw [hv] at hp; cases hp
    | some v =>
      simp only [List.foldl_cons, cacheSplitStep, hv]
      exact ih _ _ (fun q hq => h q (List.mem_cons_of_mem _ hq))

/-- Every pair the success dict of the split loop holds is consistent
with the per-reference value function: whatever was inserted for a key
is the cache value of the id that key resolves to. -/
theorem cacheSplit_mem_vf (cache : List (Nat × Nat)) (vf : AttrRef → Option Nat) :
    ∀ (pairs : List (Nat × AttrRef)) (acc : List (AttrRef × Nat)) (tr : List Nat),
      (∀ p ∈ pairs, dlookup cache p.1 = vf p.2) →
      (∀ q ∈ acc, vf q.1 = some q.2) →
      ∀ q ∈ (pairs.foldl (cacheSplitStep cache) (acc, tr)).1, vf q.1 = some q.2 := by
  intro pairs
  induction pairs with
  | nil => intro acc tr _ hacc q hq; exact hacc q hq
  | cons p ps ih =>
    intro acc tr hp hacc
    have hphead := hp p (List.mem_cons_self _ _)
    cases hv : dlookup cache p.1 with
    | none =>
      simp only [List.foldl_cons, cacheSplitStep, hv]
      exact ih _ _ (fun r hr => hp r (List.mem_cons_of_mem _ hr)) hacc
    | some v =>
      simp only [List.foldl_cons, cacheSplitStep, hv]
      refine ih _ _ (fun r hr => hp r (List.mem_cons_of_mem _ hr)) ?_
      intro q hq
      rcases mem_dinsert q acc p.2 v hq with rfl | hql
      · rw [← hphead, hv]
      · exact hacc q hql

/-- Every key of the split loop's success dict came from the starting
dict or from one of the pairs' original references. -/
theorem cacheSplit_keys (cache : List (Nat × Nat)) :
    ∀ (pairs : List (Nat × AttrRef)) (acc : List (AttrRef × Nat)) (tr : List Nat),
      ∀ q ∈ (pairs.foldl (cacheSplitStep cache) (acc, tr)).1,
        (∃ w, (q.1, w) ∈ acc) ∨ q.1 ∈ pairs.map Prod.snd := by
  intro pairs
  induction pairs with
  | nil =>
    intro acc tr q hq
    exact Or.inl ⟨q.2, by simpa using hq⟩
  | cons p ps ih =>
    intro acc tr q hq
    cases hv : dlookup cache p.1 with
    | none =>
      simp only [List.foldl_cons, cacheSplitStep, hv] at hq
      rcases ih _ _ q hq with h | h
      · exact Or.inl h
      · exact Or.inr (List.mem_cons_of_mem _ h)
    | some v =>
      simp only [List.foldl_cons, cacheSplitStep, hv] at hq
      rcases ih _ _ q hq with ⟨w, hw⟩ | h
      · rcases mem_dinsert _ _ _ _ hw with hqp | hqa
        · have hq1 : q.1 = p.2 := by
            have h2 := congrArg Prod.fst hqp
            simpa using h2
          exact Or.inr (by rw [List.map_cons]; exact List.mem_cons.mpr (Or.inl hq1))
        · exact Or.inl ⟨w, hqa⟩
      · exact Or.inr (List.mem_cons_of_mem _ h)

/-- A key already present in the success dict stays present through the
rest of the split loop. -/
theorem cacheSplit_present_mono (cache : List (Nat × Nat)) :
    ∀ (pairs : List (Nat × AttrRef)) (acc : List (AttrRef × Nat)) (tr : List Nat)
      (k : AttrRef),
      (dlookup acc k).isSome = true →
      (dlookup (pairs.foldl (cacheSplitStep cache) (acc, tr)).1 k).isSome = true := by
  intro pairs
  induction pairs with
  | nil => intro acc tr k h; exact h
  | cons p ps ih =>
    intro acc tr k h
    cases hv : dlookup cache p.1 with
    | none =>
      simp only [List.foldl_cons, cacheSplitStep, hv]
      exact ih _ _ _ h
    | some v =>
      simp only [List.foldl_cons, cacheSplitStep, hv]
      apply ih
      by_cases hk : k = p.2
      · subst hk
        rw [dlookup_dinsert_self]
        rfl
      · rw [dlookup_dinsert_ne _ _ _ _ hk]
        exact h

/-- When every pair is a cache hit, every requested reference ends up
present in the success dict. -/
theorem cacheSplit_covers (cache : List (Nat × Nat)) :
    ∀ (pairs : List (Nat × AttrRef)) (acc : List (AttrRef × Nat)) (tr : List Nat),
      (∀ p ∈ pairs, (dlookup cache p.1).isSome = true) →
      ∀ p ∈ pairs,
        (dlookup (pairs.foldl (cacheSplitStep cache) (acc, tr)).1 p.2).isSome = true := by
  intro pairs
  induction pairs with
  | nil => intro acc tr _ p hp; cases hp
  | cons p ps ih =>
    intro acc tr hall q hq
    have hphead := hall p (List.mem_cons_self _ _)
    cases hv : dlookup cache p.1 with
    | none => rw [hv] at hphead; cases hphead
    | some v =>
      simp only [List.foldl_cons, cacheSplitStep, hv]
      rcases List.mem_cons.mp hq with rfl | hq'
      · exact cacheSplit_present_mono cache ps _ tr q.2
          (by rw [dlookup_dinsert_self]; rfl)
      · exact ih _ _ (fun r hr => hall r (List.mem_cons_of_mem _ hr)) q hq'

/-- C6: a `read_attributes` call with `allow_cache=True` in which every
requested attribute (after name-to-id resolution) is already in the
cluster's attribute cache issues no network request —
`read_attributes_raw` is never invoked, whatever the response oracle
would have answered — leaves the cache unchanged, emits no events, and
returns a success map holding exactly the cached value for each
requested attribute together with an empty failure map. -/
theorem claim6_cached_read_no_network
    (d : ClusterDef) (cache : List (Nat × Nat)) (attributes : List AttrRef)
    (ids : List Nat) (resp : ReadResponse)
    (hres : attributes.mapM (resolveAttr d) = some ids)
    (hcached : ∀ id ∈ ids, (dlookup cache id).isSome = true) :
    ∃ success,
      read_attributes d cache attributes true false resp =
        some ⟨cache, ReadResult.maps success [], false, []⟩ ∧
      (∀ ref ∈ attributes, ∃ id, resolveAttr d ref = some id ∧
        dlookup success ref = dlookup cache id) ∧
      (∀ q ∈ success, q.1 ∈ attributes) := by
  obtain ⟨hzip, hcover⟩ := mapM_resolve_spec d attributes ids hres
  have hpairs_hit : ∀ p ∈ ids.zip attributes, (dlookup cache p.1).isSome = true :=
    fun p hp => hcached p.1 (List.of_mem_zip hp).1
  refine ⟨((ids.zip attributes).foldl (cacheSplitStep cache) ([], [])).1, ?_, ?_, ?_⟩
  · have hsnd := cacheSplit_snd cache (ids.zip attributes) [] [] hpairs_hit
    have hres' : List.mapM.loop (resolveAttr d) attributes [] = some ids := hres
    simp [read_attributes, hres', hsnd]
  · intro ref href
    obtain ⟨id, hid, hmem⟩ := hcover ref href
    have hpres := cacheSplit_covers cache (ids.zip attributes) [] [] hpairs_hit
      (id, ref) hmem
    obtain ⟨w, hw⟩ := Option.isSome_iff_exists.mp hpres
    have hmemw := dlookup_mem hw
    have hvf' : (resolveAttr d ref).bind (dlookup cache) = some w := by
      have hvf := cacheSplit_mem_vf cache
        (fun r => (resolveAttr d r).bind (dlookup cache))
        (ids.zip attributes) [] []
        (fun p hp => by
          show dlookup cache p.1 = (resolveAttr d p.2).bind (dlookup cache)
          rw [hzip p hp, Option.some_bind])
        (fun q hq => absurd hq (List.not_mem_nil q))
        (ref, w) hmemw
      exact hvf
    rw [hid] at hvf'
    simp only [Option.some_bind] at hvf'
    exact ⟨id, hid, by rw [hw, hvf']⟩
  · intro q hq
    rcases cacheSplit_keys cache (ids.zip attributes) [] [] q hq with ⟨w, hw⟩ | h
    · exact absurd hw (List.not_mem_nil _)
    · obtain ⟨p, hp, hpq⟩ := List.mem_map.mp h
      rw [← hpq]
      exact (List.of_mem_zip hp).2

/-- C6 witness: both requested attributes — one by name, one by id —
are cached, so the call returns the cached values without consulting
the network oracle. -/
theorem claim6_witness :
    [AttrRef.byName "on_off", AttrRef.byId 16387].mapM (resolveAttr onOffDef) =
      some [0, 16387] ∧
    (∀ id ∈ [0, 16387], (dlookup [(0, 5), (16387, 9)] id).isSome = true) ∧
    ∃ success,
      read_attributes onOffDef [(0, 5), (16387, 9)]
          [AttrRef.byName "on_off", AttrRef.byId 16387] true false
          (ReadResponse.defaultResponse 134) =
        some ⟨[(0, 5), (16387, 9)], ReadResult.maps success [], false, []⟩ ∧
      (∀ ref ∈ [AttrRef.byName "on_off", AttrRef.byId 16387],
        ∃ id, resolveAttr onOffDef ref = some id ∧
          dlookup success ref = dlookup [(0, 5), (16387, 9)] id) ∧
      (∀ q ∈ success, q.1 ∈ [AttrRef.byName "on_off", AttrRef.byId 16387]) :=
  ⟨rfl, by decide,
   claim6_cached_read_no_network onOffDef [(0, 5), (16387, 9)]
     [AttrRef.byName "on_off", AttrRef.byId 16387] [0, 16387]
     (ReadResponse.defaultResponse 134) rfl (by decide)⟩

end Bellows
